import Mathlib

/-!
Verification development for the gh-earth repository (src/app.js,
src/app-working.js): a shallow embedding of the progressive data-loading
and location-resolution pipeline, and theorems about it.

Modelling conventions:
* JavaScript numbers are modelled as exact fractions (`JNum` below,
  an unnormalized `Int` numerator over a positive `Nat` denominator),
  which keeps every arithmetic operation kernel-computable.
* JavaScript `Map` objects (insertion ordered, keyed) are modelled as
  association lists; `Map.set` replaces in place or appends, matching
  the JS insertion-order semantics.
* Strings are compared exactly; `toLowerCase` is modelled per character
  (the source only normalizes ASCII table keys).
* `async` functions in the source never interleave observably within one
  call (the resolver body has no `await`), so each operation is modelled
  as a pure state transformer.
-/

/-- Exact fraction model of a JavaScript number: numerator over a
positive denominator, not normalized (so all operations are purely
structural and kernel-computable). Equality of `JNum` values is
structural; the development only compares them via `jle`. -/
structure JNum where
  num : Int
  den : Nat
deriving DecidableEq

/-- A JS number with `d` decimal digits: `jdec n d = n / 10^d`. -/
def jdec (n : Int) (d : Nat) : JNum := ⟨n, 10 ^ d⟩

/-- Embed an integer as a `JNum`. -/
def jint (n : Int) : JNum := ⟨n, 1⟩

def jadd (a b : JNum) : JNum := ⟨a.num * b.den + b.num * a.den, a.den * b.den⟩

def jsub (a b : JNum) : JNum := ⟨a.num * b.den - b.num * a.den, a.den * b.den⟩

def jmul (a b : JNum) : JNum := ⟨a.num * b.num, a.den * b.den⟩

/-- `a ≤ b` on fractions with positive denominators, as a `Bool`. -/
def jle (a b : JNum) : Bool := decide (a.num * (b.den : Int) ≤ b.num * (a.den : Int))

/-- `Math.abs`. -/
def jabs (a : JNum) : JNum := ⟨(a.num.natAbs : Int), a.den⟩

/-- `Math.floor`, exact on fractions (`Int.fdiv` rounds towards -∞). -/
def jfloor (a : JNum) : Int := a.num.fdiv (a.den : Int)

/-- `Math.min` on integers, written out so it kernel-reduces. -/
def imin (a b : Int) : Int := if a ≤ b then a else b

/-! ### JavaScript string primitives -/

/-- `String.prototype.toLowerCase`, per character (ASCII; the lookup
tables in the source are ASCII apart from two accented city keys, which
the model keeps verbatim). -/
def jsToLower (s : String) : String := String.mk (s.data.map Char.toLower)

def isWsChar (c : Char) : Bool := c == ' ' || c == '\t' || c == '\n' || c == '\r'

/-- `String.prototype.trim` (leading and trailing whitespace removed). -/
def jsTrim (s : String) : String :=
  String.mk (((s.data.dropWhile isWsChar).reverse.dropWhile isWsChar).reverse)

/-- Does the pattern match at the head of the character list? -/
def leadMatch : List Char → List Char → Bool
  | _, [] => true
  | [], _ :: _ => false
  | c :: cs, p :: ps => c == p && leadMatch cs ps

/-- Does the pattern occur anywhere in the character list? -/
def subOccurs (pat : List Char) : List Char → Bool
  | [] => pat.isEmpty
  | c :: cs => leadMatch (c :: cs) pat || subOccurs pat cs

/-- `s.includes(pat)` for JS strings. Note `s.includes("")` is `true`
for every `s`. -/
def jsIncludes (s pat : String) : Bool := subOccurs pat.data s.data

/-! ### JS `Map` as an insertion-ordered association list

A JS `Map` never holds two entries with the same key, so `set` touches at
most one entry; the recursive `jsSet` below replaces the (unique)
occurrence in place or appends at the end, matching the insertion-order
semantics of `Map.prototype.set`. -/

/-- `Map.prototype.get` (as an `Option`). -/
def jsGet? [DecidableEq κ] : List (κ × ν) → κ → Option ν
  | [], _ => none
  | p :: rest, k => if p.1 = k then some p.2 else jsGet? rest k

/-- `Map.prototype.has`. -/
def jsHas [DecidableEq κ] (m : List (κ × ν)) (k : κ) : Bool :=
  (jsGet? m k).isSome

/-- `Map.prototype.set`: replace in place if the key exists (keeping the
original insertion position), else append. -/
def jsSet [DecidableEq κ] : List (κ × ν) → κ → ν → List (κ × ν)
  | [], k, v => [(k, v)]
  | p :: rest, k, v => if p.1 = k then (k, v) :: rest else p :: jsSet rest k v

theorem jsGet?_set_self [DecidableEq κ] (m : List (κ × ν)) (k : κ) (v : ν) :
    jsGet? (jsSet m k v) k = some v := by
  induction m with
  | nil => simp [jsSet, jsGet?]
  | cons p rest ih =>
    by_cases hp : p.1 = k
    · simp [jsSet, hp, jsGet?]
    · simp [jsSet, hp, jsGet?, ih]

theorem jsGet?_set_other [DecidableEq κ] (m : List (κ × ν)) {k k' : κ} (v : ν)
    (h : k ≠ k') : jsGet? (jsSet m k v) k' = jsGet? m k' := by
  induction m with
  | nil => simp [jsSet, jsGet?, h]
  | cons p rest ih =>
    by_cases hp : p.1 = k
    · simp [jsSet, hp, jsGet?, h]
    · simp only [jsSet, hp, if_false, jsGet?]
      by_cases hp' : p.1 = k'
      · simp [hp']
      · simp [hp', ih]

theorem jsGet?_mem [DecidableEq κ] {m : List (κ × ν)} {k : κ} {v : ν}
    (h : jsGet? m k = some v) : (k, v) ∈ m := by
  induction m with
  | nil => simp [jsGet?] at h
  | cons p rest ih =>
    by_cases hp : p.1 = k
    · simp only [jsGet?, hp, if_true, Option.some.injEq] at h
      have : (k, v) = p := by
        rw [← hp, ← h]
      rw [this]
      exact List.mem_cons_self p rest
    · simp only [jsGet?, hp, if_false] at h
      exact List.mem_cons_of_mem _ (ih h)

theorem mem_jsSet [DecidableEq κ] {m : List (κ × ν)} {k : κ} {v : ν} {p : κ × ν}
    (h : p ∈ jsSet m k v) : p ∈ m ∨ p = (k, v) := by
  induction m with
  | nil => simpa [jsSet] using h
  | cons q rest ih =>
    by_cases hq : q.1 = k
    · simp only [jsSet, hq, if_true, List.mem_cons] at h
      rcases h with h | h
      · right; exact h
      · left; exact List.mem_cons_of_mem _ h
    · simp only [jsSet, hq, if_false, List.mem_cons] at h
      rcases h with h | h
      · left
        rw [h]
        exact List.mem_cons_self q rest
      · rcases ih h with h' | h'
        · left; exact List.mem_cons_of_mem _ h'
        · right; exact h'

/-! ### Data model -/

/-- A coordinate pair (`{ lat, lng }` in the source). -/
structure Coords where
  lat : JNum
  lng : JNum
deriving DecidableEq

/-- A coordinate whose components have four decimal digits, the format of
every literal in the source's lookup tables: `c4 377749 (-1224194)` is
`{ lat: 37.7749, lng: -122.4194 }`. -/
def c4 (lat lng : Int) : Coords := ⟨jdec lat 4, jdec lng 4⟩

/-- A developer record as consumed by `app.js` (fields the pipeline
reads; numeric fields are optional because the JSON may omit them — the
source reads them through `|| 0` in most places but not all). -/
structure Developer where
  login : String
  name : Option String
  location : Option String
  coordinates : Option Coords
  followers : Option Int
  bio : Option String
  company : Option String
  total_stars : Option Int
  total_forks : Option Int
  public_repos : Option Int
deriving DecidableEq

/-- JS truthiness of an optional string field (`undefined`/`null` and
`""` are falsy). -/
def strTruthy : Option String → Bool
  | some s => decide (s ≠ "")
  | none => false

/-- The location cache: raw location value (a string, or `null` for the
`null` key the catch path inserts) mapped to coordinates or to the
explicit `null` "unresolved" marker. -/
abbrev LocationCache := List (Option String × Option Coords)

/-! ### `MAJOR_LOCATIONS` (`app.js` lines 23-39) -/

structure MajorLocation where
  name : String
  coords : Coords
  aliases : List String

def MAJOR_LOCATIONS : List MajorLocation := [
  ⟨"San Francisco", c4 377749 (-1224194), ["sf", "san francisco", "bay area"]⟩,
  ⟨"New York", c4 407128 (-740060), ["nyc", "new york", "manhattan", "brooklyn"]⟩,
  ⟨"London", c4 515074 (-1278), ["london", "uk", "united kingdom"]⟩,
  ⟨"Berlin", c4 525200 134050, ["berlin", "germany"]⟩,
  ⟨"Tokyo", c4 356762 1396503, ["tokyo", "japan"]⟩,
  ⟨"Seattle", c4 476062 (-1223321), ["seattle", "washington"]⟩,
  ⟨"Austin", c4 302672 (-977431), ["austin", "texas"]⟩,
  ⟨"Boston", c4 423601 (-710589), ["boston", "massachusetts"]⟩,
  ⟨"Toronto", c4 436532 (-793832), ["toronto", "canada"]⟩,
  ⟨"Amsterdam", c4 523676 49041, ["amsterdam", "netherlands"]⟩,
  ⟨"Paris", c4 488566 23522, ["paris", "france"]⟩,
  ⟨"Singapore", c4 13521 1038198, ["singapore"]⟩,
  ⟨"Sydney", c4 (-338688) 1512093, ["sydney", "australia"]⟩,
  ⟨"Mumbai", c4 190760 728777, ["mumbai", "bombay", "india"]⟩,
  ⟨"Bangalore", c4 129716 775946, ["bangalore", "bengaluru", "india"]⟩]

/-! ### `cityPatterns` (`app.js` lines 308-376), in object-literal order -/

def cityPatterns : List (String × Coords) := [
  ("san francisco", c4 377749 (-1224194)),
  ("new york", c4 407128 (-740060)),
  ("london", c4 515074 (-1278)),
  ("berlin", c4 525200 134050),
  ("tokyo", c4 356762 1396503),
  ("paris", c4 488566 23522),
  ("seattle", c4 476062 (-1223321)),
  ("boston", c4 423601 (-710589)),
  ("chicago", c4 418781 (-876298)),
  ("austin", c4 302672 (-977431)),
  ("toronto", c4 436532 (-793832)),
  ("vancouver", c4 492827 (-1231207)),
  ("sydney", c4 (-338688) 1512093),
  ("melbourne", c4 (-378136) 1449631),
  ("amsterdam", c4 523676 49041),
  ("stockholm", c4 593293 180686),
  ("copenhagen", c4 556761 125683),
  ("helsinki", c4 601699 249384),
  ("oslo", c4 599139 107522),
  ("zurich", c4 473769 85417),
  ("vienna", c4 482082 163738),
  ("madrid", c4 404168 (-37038)),
  ("barcelona", c4 413851 21734),
  ("rome", c4 419028 124964),
  ("milan", c4 454642 91900),
  ("munich", c4 481351 115820),
  ("hamburg", c4 535511 99937),
  ("cologne", c4 509375 69603),
  ("frankfurt", c4 501109 86821),
  ("moscow", c4 557558 376173),
  ("st petersburg", c4 599311 303609),
  ("warsaw", c4 522297 210122),
  ("prague", c4 500755 144378),
  ("budapest", c4 474979 190402),
  ("bucharest", c4 444268 261025),
  ("sofia", c4 426977 233219),
  ("athens", c4 379838 237275),
  ("istanbul", c4 410082 289784),
  ("ankara", c4 399334 328597),
  ("tel aviv", c4 320853 347818),
  ("jerusalem", c4 317683 352137),
  ("dubai", c4 252048 552708),
  ("mumbai", c4 190760 728777),
  ("delhi", c4 287041 771025),
  ("bangalore", c4 129716 775946),
  ("bengaluru", c4 129716 775946),
  ("hyderabad", c4 173850 784867),
  ("chennai", c4 130827 802707),
  ("pune", c4 185204 738567),
  ("beijing", c4 399042 1164074),
  ("shanghai", c4 312304 1214737),
  ("shenzhen", c4 225431 1140579),
  ("guangzhou", c4 231291 1132644),
  ("hangzhou", c4 302741 1201551),
  ("seoul", c4 375665 1269780),
  ("busan", c4 351796 1290756),
  ("singapore", c4 13521 1038198),
  ("bangkok", c4 137563 1005018),
  ("jakarta", c4 (-62088) 1068456),
  ("manila", c4 145995 1209842),
  ("kuala lumpur", c4 31390 1016869),
  ("ho chi minh", c4 108231 1066297),
  ("hanoi", c4 210285 1058542),
  ("taipei", c4 250330 1215654),
  ("hong kong", c4 223193 1141694),
  ("macau", c4 221987 1135439)]

/-! ### `locationMappings` (`app.js` lines 387-523), in object-literal order -/

def locationMappings : List (String × Coords) := [
  ("usa", c4 407128 (-740060)),
  ("us", c4 407128 (-740060)),
  ("united states", c4 407128 (-740060)),
  ("uk", c4 515074 (-1278)),
  ("united kingdom", c4 515074 (-1278)),
  ("england", c4 515074 (-1278)),
  ("canada", c4 436532 (-793832)),
  ("brasil", c4 (-235505) (-466333)),
  ("brazil", c4 (-235505) (-466333)),
  ("china", c4 399042 1164074),
  ("india", c4 129716 775946),
  ("japan", c4 356762 1396503),
  ("germany", c4 525200 134050),
  ("france", c4 488566 23522),
  ("australia", c4 (-338688) 1512093),
  ("netherlands", c4 523676 49041),
  ("switzerland", c4 473769 85417),
  ("sweden", c4 593293 180686),
  ("norway", c4 599139 107522),
  ("italy", c4 419028 124964),
  ("spain", c4 404168 (-37038)),
  ("russia", c4 557558 376173),
  ("poland", c4 522297 210122),
  ("south korea", c4 375665 1269780),
  ("korea", c4 375665 1269780),
  ("israel", c4 320853 347818),
  ("turkey", c4 410082 289784),
  ("mexico", c4 194326 (-991332)),
  ("argentina", c4 (-346037) (-583816)),
  ("chile", c4 (-334489) (-706693)),
  ("colombia", c4 47110 (-740721)),
  ("finland", c4 601699 249384),
  ("denmark", c4 556761 125683),
  ("austria", c4 482082 163738),
  ("belgium", c4 508503 43517),
  ("czechia", c4 500755 144378),
  ("czech republic", c4 500755 144378),
  ("hungary", c4 474979 190402),
  ("ukraine", c4 504501 305234),
  ("romania", c4 444268 261025),
  ("bulgaria", c4 426977 233219),
  ("croatia", c4 458150 159819),
  ("serbia", c4 447866 204489),
  ("greece", c4 379838 237275),
  ("portugal", c4 387223 (-91393)),
  ("ireland", c4 533498 (-62603)),
  ("estonia", c4 594370 247536),
  ("latvia", c4 569496 241052),
  ("lithuania", c4 546872 252797),
  ("slovenia", c4 460569 145058),
  ("slovakia", c4 481486 171077),
  ("belarus", c4 539006 275590),
  ("iceland", c4 641466 (-219426)),
  ("california", c4 377749 (-1224194)),
  ("ca", c4 377749 (-1224194)),
  ("texas", c4 302672 (-977431)),
  ("tx", c4 302672 (-977431)),
  ("new york", c4 407128 (-740060)),
  ("ny", c4 407128 (-740060)),
  ("florida", c4 257617 (-801918)),
  ("fl", c4 257617 (-801918)),
  ("washington", c4 476062 (-1223321)),
  ("wa", c4 476062 (-1223321)),
  ("massachusetts", c4 423601 (-710589)),
  ("ma", c4 423601 (-710589)),
  ("illinois", c4 418781 (-876298)),
  ("il", c4 418781 (-876298)),
  ("ohio", c4 399612 (-829988)),
  ("oh", c4 399612 (-829988)),
  ("georgia", c4 337490 (-843880)),
  ("ga", c4 337490 (-843880)),
  ("virginia", c4 389072 (-770369)),
  ("va", c4 389072 (-770369)),
  ("north carolina", c4 357796 (-786382)),
  ("nc", c4 357796 (-786382)),
  ("colorado", c4 397392 (-1049903)),
  ("co", c4 397392 (-1049903)),
  ("oregon", c4 455152 (-1226784)),
  ("or", c4 455152 (-1226784)),
  ("utah", c4 407608 (-1118910)),
  ("ut", c4 407608 (-1118910)),
  ("arizona", c4 334484 (-1120740)),
  ("az", c4 334484 (-1120740)),
  ("pennsylvania", c4 399526 (-751652)),
  ("pa", c4 399526 (-751652)),
  ("michigan", c4 423314 (-830458)),
  ("mi", c4 423314 (-830458)),
  ("minnesota", c4 449778 (-932650)),
  ("mn", c4 449778 (-932650)),
  ("wisconsin", c4 430389 (-879065)),
  ("wi", c4 430389 (-879065)),
  ("tennessee", c4 361627 (-867816)),
  ("tn", c4 361627 (-867816)),
  ("missouri", c4 390458 (-766413)),
  ("mo", c4 390458 (-766413)),
  ("maryland", c4 390458 (-766413)),
  ("md", c4 390458 (-766413)),
  ("connecticut", c4 417658 (-726734)),
  ("ct", c4 417658 (-726734)),
  ("new jersey", c4 400583 (-744057)),
  ("nj", c4 400583 (-744057)),
  ("indiana", c4 397684 (-861581)),
  ("in", c4 397684 (-861581)),
  ("ontario", c4 436532 (-793832)),
  ("on", c4 436532 (-793832)),
  ("quebec", c4 455017 (-735673)),
  ("qc", c4 455017 (-735673)),
  ("british columbia", c4 492827 (-1231207)),
  ("bc", c4 492827 (-1231207)),
  ("alberta", c4 510447 (-1140719)),
  ("ab", c4 510447 (-1140719)),
  ("remote", c4 377749 (-1224194)),
  ("worldwide", c4 377749 (-1224194)),
  ("everywhere", c4 377749 (-1224194)),
  ("virtual", c4 377749 (-1224194)),
  ("online", c4 377749 (-1224194)),
  ("internet", c4 377749 (-1224194)),
  ("earth", c4 377749 (-1224194)),
  ("global", c4 377749 (-1224194)),
  ("127.0.0.1", c4 377749 (-1224194)),
  ("localhost", c4 377749 (-1224194)),
  ("undefined", c4 377749 (-1224194)),
  ("null", c4 377749 (-1224194)),
  ("~", c4 377749 (-1224194)),
  ("your heart", c4 377749 (-1224194)),
  ("ghent", c4 510543 37174),
  ("são paulo", c4 (-235505) (-466333)),
  ("sao paulo", c4 (-235505) (-466333))]

/-! ### `geocodeLocation` (`app.js` lines 285-565) -/

/-- The fixed San Francisco default coordinate (`app.js` line 539). -/
def sfDefault : Coords := c4 377749 (-1224194)

/-- First pass of the resolver: the `MAJOR_LOCATIONS` alias loop
(`app.js` lines 295-305). The test is bidirectional:
`normalizedLocation.includes(alias) || alias.includes(normalizedLocation)`;
first matching city in table order wins, first matching alias within a
city wins. -/
def aliasMatch (norm : String) : Option Coords :=
  MAJOR_LOCATIONS.findSome? (fun city =>
    city.aliases.findSome? (fun a =>
      if jsIncludes norm (jsToLower a) || jsIncludes (jsToLower a) norm then
        some city.coords
      else none))

/-- Second pass: `cityPatterns` substring scan (`app.js` lines 378-384),
first key in object order wins. -/
def cityPatternMatch (norm : String) : Option Coords :=
  cityPatterns.findSome? (fun p => if jsIncludes norm p.1 then some p.2 else none)

/-- Third pass: `locationMappings` substring scan (`app.js` lines
525-531), first key in object order wins. -/
def locationMappingMatch (norm : String) : Option Coords :=
  locationMappings.findSome? (fun p => if jsIncludes norm p.1 then some p.2 else none)

/-- The continent-substring chain of the final fallback (`app.js` lines
542-552); `none` means none of the continent substrings occur. -/
def continentMatch (norm : String) : Option Coords :=
  if jsIncludes norm "europe" || jsIncludes norm "eu" then some (c4 515074 (-1278))
  else if jsIncludes norm "asia" || jsIncludes norm "asian" then some (c4 356762 1396503)
  else if jsIncludes norm "africa" || jsIncludes norm "african" then some (c4 (-262041) 280473)
  else if jsIncludes norm "south america" || jsIncludes norm "latin" then some (c4 (-235505) (-466333))
  else if jsIncludes norm "oceania" || jsIncludes norm "pacific" then some (c4 (-338688) 1512093)
  else none

/-- The final fallback (`app.js` lines 538-556): a regional default when
a continent substring occurs, otherwise the fixed San Francisco
coordinate. Always produces a coordinate. -/
def regionalDefault (norm : String) : Coords :=
  (continentMatch norm).getD sfDefault

/-- The full resolution cascade on the normalized text: alias table, then
city table, then country/state table, then the regional/SF fallback.
Each branch of the source performs `locationCache.set(location, v);
return v`; the cascade computes that `v`. -/
def matchTables (norm : String) : Coords :=
  match aliasMatch norm with
  | some c => c
  | none =>
    match cityPatternMatch norm with
    | some c => c
    | none =>
      match locationMappingMatch norm with
      | some c => c
      | none => regionalDefault norm

/-- `location.toLowerCase().trim()` (`app.js` line 292). -/
def normalizeLocation (s : String) : String := jsTrim (jsToLower s)

/-- Resolution of an input that missed the cache. A `none` input models
`null`/`undefined`: `location.toLowerCase()` throws a `TypeError`, the
`catch` logs it, and the function caches and returns `null`. A string
input never throws and always reaches some coordinate. -/
def resolveUncached : Option String → Option Coords
  | none => none
  | some s => some (matchTables (normalizeLocation s))

/-- Result of one `geocodeLocation` call: the returned value, the cache
afterwards, and whether the body past the cache check ran (i.e. whether a
resolution attempt was made). -/
structure GeoResult where
  result : Option Coords
  cache : LocationCache
  attempted : Bool
deriving DecidableEq

/-- `geocodeLocation` (`app.js` lines 285-565) as a cache transformer.
Cache hit: return the cached value unchanged with no work. Cache miss:
run the cascade (or the catch path for a non-string), writing the result
into the cache under the raw input before returning it. -/
def geocodeLocation (cache : LocationCache) (inp : Option String) : GeoResult :=
  match jsGet? cache inp with
  | some v => ⟨v, cache, false⟩
  | none =>
    let v := resolveUncached inp
    ⟨v, jsSet cache inp v, true⟩

/-! ### Popup and markers (`createPopupContent`, `app.js` lines 664-691) -/

/-- The data rendered into a popup. `displayName` is
`developer.name || developer.login`; `bioSnippet` is
`bio.substring(0, 100)` when `bio` is truthy. -/
structure Popup where
  login : String
  displayName : String
  followers : Int
  location : Option String
  company : Option String
  bioSnippet : Option String
  public_repos : Option Int
deriving DecidableEq

/-- `createPopupContent` (`app.js` lines 664-691). The expression
`developer.followers.toLocaleString()` throws a `TypeError` when the
record has no `followers` field; every other field access is guarded by
truthiness or interpolates harmlessly. `Except.error` models that
throw. -/
def createPopupContent (d : Developer) : Except Unit Popup :=
  match d.followers with
  | none => .error ()
  | some f =>
    .ok
      { login := d.login
        displayName := match d.name with
          | some n => if n ≠ "" then n else d.login
          | none => d.login
        followers := f
        location := d.location
        company := d.company
        bioSnippet := match d.bio with
          | some b => if b ≠ "" then some (String.mk (b.data.take 100)) else none
          | none => none
        public_repos := d.public_repos }

/-- One Leaflet marker: the `L.marker([lat + offset, lng + offset])`
position together with its bound popup. -/
structure Marker where
  lat : JNum
  lng : JNum
  popup : Popup
deriving DecidableEq

/-! ### Application state (`app.js` lines 1-8, module-level mutables) -/

/-- The module-level mutable state of `app.js`:
`allDevelopers` (a `Map` keyed by login), `loadedBatches` (a `Set` of
batch indices, insertion ordered), `locationCache`, and the current
`markers` array (the Marker Set; `markerLayers.all` holds the same
markers). -/
structure AppState where
  allDevelopers : List (String × Developer)
  loadedBatches : List Nat
  locationCache : LocationCache
  markers : List Marker
deriving DecidableEq

/-- `Set.prototype.add`: append if absent. -/
def addBatch (lb : List Nat) (n : Nat) : List Nat :=
  if lb.contains n then lb else lb ++ [n]

/-! ### `loadBatch` (`app.js` lines 99-146) -/

/-- What one `fetch` of a batch resource can deliver:
parsed JSON (`success`, with `batchData.developers || []` already
applied), a 2xx whose body fails to parse, a 404, another non-2xx
status, or a rejected fetch. -/
inductive FetchOutcome
  | success (devs : List Developer)
  | malformed
  | notFound
  | httpError
  | networkError

/-- The external data source as `loadBatch` sees it: what fetching
`./data/developers-batch-n.json` yields for each `n`, and what the
single-file fallback `./developers-data.json` yields (`some devs` when
the fallback fetch succeeds and parses, `none` when it fails in any
way). -/
structure World where
  batchFetch : Nat → FetchOutcome
  fallbackFetch : Option (List Developer)

/-- Result of a `loadBatch` call: the state afterwards, the list the
call returns to its caller, and whether `showError` ran. -/
structure LoadResult where
  state : AppState
  returned : List Developer
  errorShown : Bool
deriving DecidableEq

/-- The merge loop of `loadBatch` (`app.js` lines 127-131): add each
developer only if its login is not already present — first write wins. -/
def batchMerge (store : List (String × Developer)) (devs : List Developer) :
    List (String × Developer) :=
  devs.foldl (fun m d => if jsHas m d.login then m else jsSet m d.login d) store

/-- `loadBatch` (`app.js` lines 99-146). Already-loaded batches are a
no-op returning `[]`. On a 404 the single-file fallback is fetched; when
that succeeds its developers are returned directly — without being
merged into `allDevelopers` and without marking any batch loaded (the
early `return` at line 117 skips both). Every failure path is caught,
shows an error, and returns `[]` leaving the state untouched. -/
def loadBatch (w : World) (st : AppState) (n : Nat) : LoadResult :=
  if st.loadedBatches.contains n then ⟨st, [], false⟩
  else
    match w.batchFetch n with
    | .success devs =>
      ⟨{ st with
          allDevelopers := batchMerge st.allDevelopers devs
          loadedBatches := addBatch st.loadedBatches n },
        devs, false⟩
    | .malformed => ⟨st, [], true⟩
    | .notFound =>
      match w.fallbackFetch with
      | some devs => ⟨st, devs, false⟩
      | none => ⟨st, [], true⟩
    | .httpError => ⟨st, [], true⟩
    | .networkError => ⟨st, [], true⟩

/-! ### `loadInitialData` fallback path (`app.js` lines 157-197) -/

/-- The geocoding loop the fallback path runs over the first 20 fetched
developers (`app.js` lines 174-190): for each developer with a truthy
`location` and no `coordinates`, call `geocodeLocation` and, when it
returns coordinates, store them on the record. The cache threads through
the loop. -/
def fallbackGeocodeLoop : List Developer → LocationCache → List Developer × LocationCache
  | [], c => ([], c)
  | d :: ds, c =>
    let step : Developer × LocationCache :=
      if strTruthy d.location && d.coordinates.isNone then
        let r := geocodeLocation c d.location
        (match r.result with
          | some co => { d with coordinates := some co }
          | none => d,
          r.cache)
      else (d, c)
    let rest := fallbackGeocodeLoop ds step.2
    (step.1 :: rest.1, rest.2)

/-- The single-file fallback path of `loadInitialData` (`app.js` lines
160-196), applied to the developer list parsed from
`./developers-data.json`: every record is `set` into `allDevelopers`
unconditionally (line 166 — overwriting any record already present under
the same login), batch `0` is marked loaded, and the first 20 records
are geocoded in place (the records in the `Map` are the same objects, so
their coordinates update too). -/
def loadInitialFallback (st : AppState) (devs : List Developer) : AppState :=
  let store1 := devs.foldl (fun m d => jsSet m d.login d) st.allDevelopers
  let geo := fallbackGeocodeLoop (devs.take 20) st.locationCache
  let store2 := geo.1.foldl (fun m d => jsSet m d.login d) store1
  { st with
      allDevelopers := store2
      loadedBatches := addBatch st.loadedBatches 0
      locationCache := geo.2 }

/-! ### Zoom-driven expansion (`onMapChange`, `app.js` lines 223-254) -/

/-- The index file contents `loadIndex` stores (`index.json`). -/
structure IndexInfo where
  total_developers : Nat
  total_batches : Nat
deriving DecidableEq

/-- `Math.floor((zoom - minZoomForMore) * batchesPerZoomLevel) + 1`
(`app.js` line 235), with `minZoomForMore = 5`,
`batchesPerZoomLevel = 1`. -/
def additionalBatches (zoom : JNum) : Int :=
  jfloor (jmul (jsub zoom (jint 5)) (jint 1)) + 1

/-- `targetBatches` (`app.js` lines 236-240):
`Math.min(initialBatches + additional, index.total_batches, maxBatches)`
with `initialBatches = 2`, `maxBatches = 10`. -/
def targetBatchCount (zoom : JNum) (totalBatches : Nat) : Int :=
  imin (imin (2 + additionalBatches zoom) (totalBatches : Int)) 10

/-- The sequence of batch indices `onMapChange` calls `loadBatch` on
(`app.js` lines 231-249), in call order: when the zoom/size guard and
the index are present, `i` runs from `loadedBatches.size` to
`targetBatches - 1`, calling `loadBatch(i)` for every `i` not already in
`loadedBatches`. (`loadBatch` only ever inserts the index it is given,
and the loop counter is strictly increasing, so testing against the
initial set is equivalent to the source's test against the evolving
set.) -/
def onMapChangePlan (zoom : JNum) (loaded : List Nat) (idx : Option IndexInfo) : List Nat :=
  match idx with
  | none => []
  | some info =>
    if jle (jint 5) zoom && decide (loaded.length < 10) then
      (List.range' loaded.length ((targetBatchCount zoom info.total_batches).toNat - loaded.length)).filter
        (fun i => !loaded.contains i)
    else []

/-! ### Viewport selection (`getDevelopersInBounds`, `app.js` lines 257-282) -/

/-- A Leaflet `LatLngBounds`. -/
structure Bounds where
  south : JNum
  north : JNum
  west : JNum
  east : JNum
deriving DecidableEq

/-- `bounds.pad(r)`: extend by `r` times the height/width in each
direction (Leaflet computes the buffers with `Math.abs`). -/
def padBounds (b : Bounds) (r : JNum) : Bounds :=
  let hBuf := jmul (jabs (jsub b.south b.north)) r
  let wBuf := jmul (jabs (jsub b.west b.east)) r
  ⟨jsub b.south hBuf, jadd b.north hBuf, jsub b.west wBuf, jadd b.east wBuf⟩

/-- `bounds.contains(latLng)`: inclusive containment on both axes. -/
def boundsContains (b : Bounds) (c : Coords) : Bool :=
  jle b.south c.lat && jle c.lat b.north && jle b.west c.lng && jle c.lng b.east

/-- `d.followers` as the sort comparator reads it. The source comparator
is `(a, b) => b.followers - a.followers`; when a record lacks
`followers` the subtraction is `NaN`, which `Array.prototype.sort`
normalizes to `+0` — but a comparator that does that is not consistent,
and ECMA-262 leaves the resulting order implementation-defined. The
model resolves that freedom by ranking an absent count as `0`; on inputs
where every record has a `followers` count (the only inputs on which the
source's order is specified) this is exactly the stable descending
sort. -/
def followerVal (d : Developer) : Int := d.followers.getD 0

/-- The stable descending-by-followers sort (`Array.prototype.sort` is
stable, and insertion sort is the unique stable sort for a total
preorder). -/
def sortByFollowers (devs : List Developer) : List Developer :=
  List.insertionSort (fun a b => followerVal b ≤ followerVal a) devs

/-- Values of the developer `Map` in insertion order. -/
def jsValues (m : List (String × Developer)) : List Developer := m.map (fun p => p.2)

/-- `getDevelopersInBounds` (`app.js` lines 257-282): pad the bounds by
20%; if fewer than 100 developers are loaded, bypass the bounds test
(`showAll`); include developers whose coordinates pass the test, and
developers with no coordinates but a truthy `location`; sort by
followers descending; truncate to `min(total, 200)` under `showAll`,
else to `developersPerView = 100`. -/
def getDevelopersInBounds (st : AppState) (bounds : Bounds) : List Developer :=
  let expandedBounds := padBounds bounds (jdec 2 1)
  let totalDevelopers := st.allDevelopers.length
  let showAll := decide (totalDevelopers < 100)
  let developersInBounds := (jsValues st.allDevelopers).filter (fun d =>
    match d.coordinates with
    | some c => showAll || boundsContains expandedBounds c
    | none => strTruthy d.location)
  (sortByFollowers developersInBounds).take
    (if showAll then min totalDevelopers 200 else 100)

/-! ### Marker refresh (`updateMapMarkers`, `app.js` lines 568-661) -/

/-- The geocoding phase of `updateMapMarkers` (`app.js` lines 585-618):
for each selected developer with no coordinates and a truthy location,
either read the cache (when `locationCache.has` hits) or call
`geocodeLocation`, assigning the coordinates onto the record when
truthy. The resolver body contains no `await`, so its cache write is
visible to the next iteration; threading the cache sequentially is
observationally equivalent to the source's batched promises. This phase
never throws: `geocodeLocation` catches internally. -/
def geocodePass : List Developer → LocationCache → List Developer × LocationCache
  | [], c => ([], c)
  | d :: ds, c =>
    let step : Developer × LocationCache :=
      if d.coordinates.isNone && strTruthy d.location then
        if jsHas c d.location then
          (match jsGet? c d.location with
            | some (some co) => { d with coordinates := some co }
            | _ => d,
            c)
        else
          let r := geocodeLocation c d.location
          (match r.result with
            | some co => { d with coordinates := some co }
            | none => d,
            r.cache)
      else (d, c)
    let rest := geocodePass ds step.2
    (step.1 :: rest.1, rest.2)

/-- The grouping key `"lat.toFixed(3),lng.toFixed(3)"` for one
coordinate component: the sign character of the formatted string
together with the magnitude rounded half-up to 3 decimals (ECMA-262
`toFixed` formats the sign from the original value, then rounds the
magnitude, ties to the larger). `(true, 0)` is the string `"-0.000"`,
distinct from `"0.000"`. -/
def fixed3 (q : JNum) : Bool × Int :=
  (decide (q.num < 0), jfloor (jadd (jmul (jabs q) (jint 1000)) ⟨1, 2⟩))

/-- `parseFloat` of one formatted component: the rounded value. -/
def fixed3Val (p : Bool × Int) : JNum :=
  ⟨if p.1 then -p.2 else p.2, 1000⟩

/-- The `locationGroups` object (`app.js` lines 620-629): developers with
coordinates, grouped by formatted coordinate key; groups appear in
first-occurrence order (the keys are non-index strings, so
`Object.entries` iterates them in insertion order) and each group keeps
its members in selection order. -/
def groupByKey (devs : List Developer) :
    List (((Bool × Int) × (Bool × Int)) × List Developer) :=
  devs.foldl (fun gs d =>
    match d.coordinates with
    | none => gs
    | some c =>
      let k := (fixed3 c.lat, fixed3 c.lng)
      if gs.any (fun g => decide (g.1 = k)) then
        gs.map (fun g => if g.1 = k then (g.1, g.2 ++ [d]) else g)
      else gs ++ [(k, [d])]) []

/-- The marker-construction loop over one coordinate group (`app.js`
lines 636-644): member `index` is placed at the base coordinate plus
`index * 0.001` on both axes, with its popup. `createPopupContent` can
throw; the developers before the throwing one have already been added,
so the `error` value carries the markers built so far. -/
def buildGroupMarkers (baseLat baseLng : JNum) : Nat → List Developer → Except (List Marker) (List Marker)
  | _, [] => .ok []
  | i, d :: ds =>
    match createPopupContent d with
    | .error _ => .error []
    | .ok p =>
      let offset : JNum := ⟨(i : Int), 1000⟩
      let m : Marker := ⟨jadd baseLat offset, jadd baseLng offset, p⟩
      match buildGroupMarkers baseLat baseLng (i + 1) ds with
      | .ok ms => .ok (m :: ms)
      | .error ms => .error (m :: ms)

/-- The marker-construction loop over all groups (`app.js` lines
632-650). The base coordinate is parsed back from the string key, i.e.
it is the rounded value. A throw aborts the whole loop; markers already
added stay. -/
def buildMarkers : List (((Bool × Int) × (Bool × Int)) × List Developer) → Except (List Marker) (List Marker)
  | [] => .ok []
  | g :: gs =>
    match buildGroupMarkers (fixed3Val g.1.1) (fixed3Val g.1.2) 0 g.2 with
    | .error ms => .error ms
    | .ok ms =>
      match buildMarkers gs with
      | .ok ms' => .ok (ms ++ ms')
      | .error ms' => .error (ms ++ ms')

/-- Reference list for the error case: the markers that construction
produces when throwing developers are skipped (the group index still
advances, as `forEach` would). Used to state that a failed refresh
leaves exactly a prefix of the constructible markers. -/
def buildGroupMarkersSkip (baseLat baseLng : JNum) : Nat → List Developer → List Marker
  | _, [] => []
  | i, d :: ds =>
    match createPopupContent d with
    | .error _ => buildGroupMarkersSkip baseLat baseLng (i + 1) ds
    | .ok p =>
      let offset : JNum := ⟨(i : Int), 1000⟩
      ⟨jadd baseLat offset, jadd baseLng offset, p⟩ :: buildGroupMarkersSkip baseLat baseLng (i + 1) ds

/-- All-group version of `buildGroupMarkersSkip`. -/
def buildMarkersSkip : List (((Bool × Int) × (Bool × Int)) × List Developer) → List Marker
  | [] => []
  | g :: gs => buildGroupMarkersSkip (fixed3Val g.1.1) (fixed3Val g.1.2) 0 g.2 ++ buildMarkersSkip gs

/-- Result of one `updateMapMarkers` call. -/
structure RefreshResult where
  state : AppState
  errorShown : Bool
deriving DecidableEq

/-- `updateMapMarkers` (`app.js` lines 568-661). The candidate set is
computed first (line 570, outside the `try`); the `try` block then
clears the Marker Set (lines 577-579) before geocoding and marker
construction. An exception during construction is caught (line 655),
`showError` runs, and whatever markers were built before the throw
remain the Marker Set. Coordinates assigned during the geocoding phase
persist on the records in `allDevelopers` (same objects). -/
def updateMapMarkers (st : AppState) (bounds : Bounds) : RefreshResult :=
  let developersToShow := getDevelopersInBounds st bounds
  let geo := geocodePass developersToShow st.locationCache
  let store := geo.1.foldl (fun m d => jsSet m d.login d) st.allDevelopers
  let groups := groupByKey geo.1
  match buildMarkers groups with
  | .ok ms =>
    ⟨{ st with allDevelopers := store, locationCache := geo.2, markers := ms }, false⟩
  | .error ms =>
    ⟨{ st with allDevelopers := store, locationCache := geo.2, markers := ms }, true⟩

/-! ### List renderers -/

/-- One search-field test of the `app.js` list filter: the field must be
truthy and its lowercase form must contain the (lowercased) query. -/
def fieldHit (f : Option String) (query : String) : Bool :=
  match f with
  | some s => decide (s ≠ "") && jsIncludes (jsToLower s) query
  | none => false

/-- The search filter of `renderDeveloperList` (`app.js` lines 800-810):
an empty query matches everything; otherwise match if any of name,
login, bio, location, company contains the query case-insensitively. -/
def matchesQuery (searchQuery : String) (d : Developer) : Bool :=
  if searchQuery = "" then true
  else
    let query := jsToLower searchQuery
    fieldHit d.name query || fieldHit (some d.login) query || fieldHit d.bio query ||
      fieldHit d.location query || fieldHit d.company query

/-- `renderDeveloperList` of `app.js` (lines 791-894): filter the whole
store by the query, sort descending by `a[currentSort] || 0` (modelled
by the accessor `sortVal`), and render every remaining developer with
its 1-based rank badge. There is no truncation in this version. -/
def renderDeveloperList (sortVal : Developer → Option Int) (searchQuery : String)
    (store : List (String × Developer)) : List (Nat × Developer) :=
  let developers := jsValues store
  let filteredDevelopers := developers.filter (matchesQuery searchQuery)
  let sorted := List.insertionSort
    (fun a b => (sortVal b).getD 0 ≤ (sortVal a).getD 0) filteredDevelopers
  sorted.enum.map (fun p => (p.1 + 1, p.2))

/-- `renderDeveloperList` of `app-working.js` (lines 237-291): sort all
developers descending by `a[currentSort] || 0` and render the first 50
(`slice(0, 50)`). No search filter exists in this version. -/
def renderDeveloperListWorking (sortVal : Developer → Option Int)
    (allDevs : List Developer) : List (Nat × Developer) :=
  let sorted := List.insertionSort
    (fun a b => (sortVal b).getD 0 ≤ (sortVal a).getD 0) allDevs
  (sorted.take 50).enum.map (fun p => (p.1 + 1, p.2))

/-! ## Claim theorems -/

/-! ### C4 — resolver idempotence via the cache -/

/-- C4: every resolution path of `geocodeLocation` writes its result
into the location cache before returning, and a second call with the
same input returns the cached result with the cache unchanged and
without re-running the matching cascade (`attempted = false`) — at most
one resolution attempt per distinct input per session. -/
theorem geocodeLocation_idempotent (cache : LocationCache) (inp : Option String) :
    jsGet? (geocodeLocation cache inp).cache inp = some (geocodeLocation cache inp).result
    ∧ geocodeLocation (geocodeLocation cache inp).cache inp =
        ⟨(geocodeLocation cache inp).result, (geocodeLocation cache inp).cache, false⟩ := by
  cases h : jsGet? cache inp with
  | some v =>
    have hr : geocodeLocation cache inp = ⟨v, cache, false⟩ := by
      unfold geocodeLocation
      rw [h]
    rw [hr]
    exact ⟨h, by unfold geocodeLocation; rw [h]⟩
  | none =>
    have hr : geocodeLocation cache inp =
        ⟨resolveUncached inp, jsSet cache inp (resolveUncached inp), true⟩ := by
      unfold geocodeLocation
      rw [h]
    rw [hr]
    refine ⟨jsGet?_set_self cache inp (resolveUncached inp), ?_⟩
    unfold geocodeLocation
    rw [jsGet?_set_self cache inp (resolveUncached inp)]

/-! ### C5 — empty and null inputs -/

/-- C5 counterexample: the claim says `resolve("")` yields the
unresolved marker, but on the empty string the alias loop's
bidirectional test `alias.includes("")` is `true` for the very first
alias (`"sf"`), so the resolver returns the San Francisco coordinate,
not the unresolved marker. -/
theorem geocode_empty_string_cex :
    (geocodeLocation [] (some "")).result = some sfDefault
    ∧ (geocodeLocation [] (some "")).result ≠ none :=
  ⟨by decide, by decide⟩

/-- C5 (amended): a `null` input yields the unresolved result (the
normalization throw is caught, and no table is consulted); an empty
string, however, is matched by the first alias-table entry under the
bidirectional substring test and yields the San Francisco coordinate. -/
theorem geocode_null_unresolved (cache : LocationCache) :
    (jsGet? cache none = none → (geocodeLocation cache none).result = none)
    ∧ (jsGet? cache (some "") = none →
        (geocodeLocation cache (some "")).result = some sfDefault) := by
  constructor
  · intro h
    unfold geocodeLocation
    rw [h]
    rfl
  · intro h
    unfold geocodeLocation
    rw [h]
    show resolveUncached (some "") = some sfDefault
    decide

/-- Witness for C5 (amended) on the empty cache. -/
theorem geocode_null_unresolved_witness :
    (geocodeLocation [] none).result = none
    ∧ (geocodeLocation [] (some "")).result = some sfDefault :=
  ⟨(geocode_null_unresolved []).1 rfl, (geocode_null_unresolved []).2 rfl⟩

/-! ### C9 — string inputs always resolve -/

/-- A cache in which every string key is resolved to a coordinate (the
`null` "unresolved" value can sit only under the `null` key). Holds for
the empty cache and is preserved by every call, so it characterizes
every cache reachable in a session. -/
def CacheOK (c : LocationCache) : Prop :=
  ∀ p ∈ c, p.1.isSome = true → p.2.isSome = true

instance (c : LocationCache) : Decidable (CacheOK c) := by
  unfold CacheOK
  infer_instance

/-- No table of the cascade matches the normalized text. -/
def noTableMatch (norm : String) : Bool :=
  (aliasMatch norm).isNone && (cityPatternMatch norm).isNone &&
    (locationMappingMatch norm).isNone && (continentMatch norm).isNone

/-- C9: in any session-reachable cache, a string input always resolves
to some coordinate (never the unresolved marker); the `CacheOK`
invariant is preserved by every call (so `null` results can only sit
under the `null` key, which only a non-string input writes); and a
fresh string matching no table entry receives exactly the fixed San
Francisco default. -/
theorem geocodeLocation_string_total (cache : LocationCache) (inp : Option String)
    (s : String) (hOK : CacheOK cache) :
    (geocodeLocation cache (some s)).result.isSome = true
    ∧ CacheOK (geocodeLocation cache inp).cache
    ∧ (jsGet? cache (some s) = none → noTableMatch (normalizeLocation s) = true →
        (geocodeLocation cache (some s)).result = some sfDefault) := by
  refine ⟨?_, ?_, ?_⟩
  · cases h : jsGet? cache (some s) with
    | some v =>
      have hm := jsGet?_mem h
      have := hOK _ hm rfl
      unfold geocodeLocation
      rw [h]
      exact this
    | none =>
      unfold geocodeLocation
      rw [h]
      rfl
  · cases h : jsGet? cache inp with
    | some v =>
      unfold geocodeLocation
      rw [h]
      exact hOK
    | none =>
      unfold geocodeLocation
      rw [h]
      intro p hp hkey
      rcases mem_jsSet hp with hmem | heq
      · exact hOK _ hmem hkey
      · rw [heq] at hkey ⊢
        cases inp with
        | none => simp at hkey
        | some s' => rfl
  · intro h hn
    unfold geocodeLocation
    rw [h]
    show some (matchTables (normalizeLocation s)) = some sfDefault
    unfold noTableMatch at hn
    simp only [Bool.and_eq_true, Option.isNone_iff_eq_none] at hn
    obtain ⟨⟨⟨h1, h2⟩, h3⟩, h4⟩ := hn
    unfold matchTables
    rw [h1, h2, h3]
    unfold regionalDefault
    rw [h4]
    rfl

/-- Witness for C9 on the empty cache and the string `"Gotham"`, which
matches no table entry and therefore resolves to the San Francisco
default. -/
theorem geocodeLocation_string_total_witness :
    CacheOK [] ∧ (geocodeLocation [] (some "Gotham")).result.isSome = true
    ∧ (geocodeLocation [] (some "Gotham")).result = some sfDefault :=
  ⟨by decide,
    (geocodeLocation_string_total [] (some "Gotham") "Gotham" (by decide)).1,
    (geocodeLocation_string_total [] (some "Gotham") "Gotham" (by decide)).2.2 rfl (by decide)⟩

/-! ### Loader lemmas -/

theorem jsHas_true_of_get (m : List (κ × ν)) [DecidableEq κ] {k : κ} {v : ν}
    (h : jsGet? m k = some v) : jsHas m k = true := by
  unfold jsHas
  rw [h]
  rfl

theorem jsSet_of_not_has [DecidableEq κ] {m : List (κ × ν)} {k : κ} (v : ν)
    (h : jsHas m k = false) : jsSet m k v = m ++ [(k, v)] := by
  induction m with
  | nil => rfl
  | cons p rest ih =>
    unfold jsHas jsGet? at h
    by_cases hp : p.1 = k
    · simp [hp] at h
    · simp only [hp, if_false] at h
      simp only [jsSet, hp, if_false, List.cons_append, List.cons.injEq, true_and]
      exact ih h

theorem jsHas_false_not_mem [DecidableEq κ] {m : List (κ × ν)} {k : κ}
    (h : jsHas m k = false) : k ∉ m.map Prod.fst := by
  induction m with
  | nil => simp
  | cons p rest ih =>
    unfold jsHas jsGet? at h
    by_cases hp : p.1 = k
    · simp [hp] at h
    · simp only [hp, if_false] at h
      simp only [List.map_cons, List.mem_cons]
      push_neg
      exact ⟨fun he => hp he.symm, ih h⟩

/-- `batchMerge` never changes the entry under a login that is already
present. -/
theorem batchMerge_get_present (devs : List Developer)
    (m : List (String × Developer)) (login : String)
    (h : jsHas m login = true) :
    jsGet? (batchMerge m devs) login = jsGet? m login := by
  induction devs generalizing m with
  | nil => rfl
  | cons d ds ih =>
    show jsGet? (batchMerge (if jsHas m d.login then m else jsSet m d.login d) ds) login =
      jsGet? m login
    by_cases hd : jsHas m d.login = true
    · rw [if_pos hd]
      exact ih m h
    · rw [if_neg hd]
      have hne : d.login ≠ login := by
        intro he
        rw [he] at hd
        exact hd h
      have hget : jsGet? (jsSet m d.login d) login = jsGet? m login :=
        jsGet?_set_other m d hne
      have hhas : jsHas (jsSet m d.login d) login = true := by
        unfold jsHas
        rw [hget]
        exact h
      rw [ih (jsSet m d.login d) hhas, hget]

/-- `batchMerge` preserves key uniqueness. -/
theorem batchMerge_nodup (devs : List Developer) (m : List (String × Developer))
    (h : (m.map Prod.fst).Nodup) : ((batchMerge m devs).map Prod.fst).Nodup := by
  induction devs generalizing m with
  | nil => exact h
  | cons d ds ih =>
    show (((batchMerge (if jsHas m d.login then m else jsSet m d.login d) ds)).map Prod.fst).Nodup
    by_cases hd : jsHas m d.login = true
    · rw [if_pos hd]
      exact ih m h
    · rw [if_neg hd]
      have hd' : jsHas m d.login = false := by simpa using hd
      refine ih _ ?_
      rw [jsSet_of_not_has d hd', List.map_append]
      rw [List.nodup_append]
      refine ⟨h, List.nodup_singleton _, ?_⟩
      intro a ha hb
      simp only [List.map_cons, List.map_nil, List.mem_singleton] at hb
      rw [hb] at ha
      exact jsHas_false_not_mem hd' ha

/-! ### Concrete fixtures used by counterexamples and witnesses -/

/-- A developer record delivered by the consolidated fallback file. -/
def octoA : Developer :=
  { login := "octocat", name := some "A", location := none,
    coordinates := some (c4 10000 10000), followers := some 5, bio := none,
    company := none, total_stars := some 7, total_forks := none,
    public_repos := none }

/-- A later record with the same login and different data. -/
def octoB : Developer :=
  { login := "octocat", name := some "B", location := none,
    coordinates := some (c4 20000 20000), followers := some 9, bio := none,
    company := none, total_stars := some 2, total_forks := none,
    public_repos := none }

/-- The pristine module state (before any load). -/
def emptyState : AppState := ⟨[], [], [], []⟩

/-- A state in which batch `0` is already marked loaded. -/
def oneBatchState : AppState := ⟨[], [0], [], []⟩

/-- A source whose batch resources all 404 while the consolidated
fallback file serves `[octoA]`. -/
def worldNotFound : World := ⟨fun _ => .notFound, some [octoA]⟩

/-- A source whose every batch resource serves `[octoA]`. -/
def worldBatchA : World := ⟨fun _ => .success [octoA], none⟩

/-- A source whose every batch resource serves `[octoB]`. -/
def worldBatchB : World := ⟨fun _ => .success [octoB], none⟩

/-- A source that is entirely unreachable. -/
def worldNetDown : World := ⟨fun _ => .networkError, none⟩

/-- The state after loading batch `0` from `worldBatchA`: the store
holds `octoA`. -/
def storeStateA : AppState := (loadBatch worldBatchA emptyState 0).state

/-! ### C2 — the 404 fallback inside `loadBatch` -/

/-- C2 counterexample: with nothing loaded at all and batch `0`
reporting not-found, the fallback fetch succeeds and its developers are
returned — but they do not end up in the Developer Store (the early
`return` skips the merge), and no batch is marked loaded; the claim
says they become a substitute for the batch system. -/
theorem loadBatch_fallback_cex :
    (loadBatch worldNotFound emptyState 0).returned = [octoA]
    ∧ jsHas (loadBatch worldNotFound emptyState 0).state.allDevelopers "octocat" = false
    ∧ (loadBatch worldNotFound emptyState 0).state = emptyState :=
  ⟨by decide, by decide, by decide⟩

/-- C2 (amended): `loadBatch(n)` is a no-op when `n` is already loaded;
on a 404 the consolidated fallback is fetched regardless of whether any
batches have been loaded, and on success its developers are returned to
the caller while the Developer Store, the loaded-batch set and the rest
of the state stay exactly as they were. -/
theorem loadBatch_noop_and_fallback (w : World) (st : AppState) (n : Nat)
    (devs : List Developer) :
    (st.loadedBatches.contains n = true → loadBatch w st n = ⟨st, [], false⟩)
    ∧ (st.loadedBatches.contains n = false → w.batchFetch n = .notFound →
        w.fallbackFetch = some devs → loadBatch w st n = ⟨st, devs, false⟩) := by
  constructor
  · intro h
    unfold loadBatch
    rw [h]
    rfl
  · intro h hb hf
    unfold loadBatch
    rw [h, hb, hf]
    rfl

/-- Witness for C2 (amended): the no-op branch on a loaded batch and the
fallback branch on a fresh one. -/
theorem loadBatch_noop_and_fallback_witness :
    loadBatch worldNotFound oneBatchState 0 = ⟨oneBatchState, [], false⟩
    ∧ loadBatch worldNotFound oneBatchState 1 = ⟨oneBatchState, [octoA], false⟩ :=
  ⟨(loadBatch_noop_and_fallback worldNotFound oneBatchState 0 [octoA]).1 (by decide),
    (loadBatch_noop_and_fallback worldNotFound oneBatchState 1 [octoA]).2 (by decide) rfl rfl⟩

/-! ### C3 — deduplication / first-write-wins -/

/-- C3 counterexample: the claim says no load path ever overwrites a
present developer, but the single-file fallback path of
`loadInitialData` sets records unconditionally: after batch `0` merges
`octoA`, running that path with `[octoB]` leaves the store holding
`octoB` — the later load's data, not the first's. -/
theorem fallback_overwrites_cex :
    jsGet? storeStateA.allDevelopers "octocat" = some octoA
    ∧ jsGet? (loadInitialFallback storeStateA [octoB]).allDevelopers "octocat" = some octoB
    ∧ octoB ≠ octoA :=
  ⟨by decide, by decide, by decide⟩

/-- C3 (amended): under `loadBatch` the Developer Store is first-write-
wins and keeps logins unique: a login already present keeps exactly its
current record through any later batch load, and key uniqueness is
preserved. The `loadInitialData` single-file fallback path, by
contrast, overwrites unconditionally (last write wins on that path). -/
theorem loadBatch_first_write_wins (w : World) (st : AppState) (n : Nat)
    (login : String) (h : jsHas st.allDevelopers login = true) :
    jsGet? (loadBatch w st n).state.allDevelopers login = jsGet? st.allDevelopers login
    ∧ ((st.allDevelopers.map Prod.fst).Nodup →
        ((loadBatch w st n).state.allDevelopers.map Prod.fst).Nodup) := by
  cases hn : st.loadedBatches.contains n with
  | true =>
    have hm : n ∈ st.loadedBatches := by simpa using hn
    simp [loadBatch, hm]
  | false =>
    have hm : ¬ n ∈ st.loadedBatches := by simpa using hn
    cases hb : w.batchFetch n with
    | success devs =>
      simp only [loadBatch, hn, Bool.false_eq_true, if_false, hb]
      exact ⟨batchMerge_get_present devs st.allDevelopers login h,
        fun hd => batchMerge_nodup devs st.allDevelopers hd⟩
    | malformed => simp [loadBatch, hm, hb]
    | notFound =>
      simp only [loadBatch, hn, Bool.false_eq_true, if_false, hb]
      cases w.fallbackFetch <;> simp
    | httpError => simp [loadBatch, hm, hb]
    | networkError => simp [loadBatch, hm, hb]

/-- Witness for C3 (amended): loading a later batch that also delivers
login `"octocat"` leaves the first batch's record in place. -/
theorem loadBatch_first_write_wins_witness :
    jsGet? (loadBatch worldBatchB storeStateA 1).state.allDevelopers "octocat" =
      jsGet? storeStateA.allDevelopers "octocat"
    ∧ ((loadBatch worldBatchB storeStateA 1).state.allDevelopers.map Prod.fst).Nodup :=
  ⟨(loadBatch_first_write_wins worldBatchB storeStateA 1 "octocat" (by decide)).1,
    (loadBatch_first_write_wins worldBatchB storeStateA 1 "octocat" (by decide)).2 (by decide)⟩

/-! ### C10 — `loadBatch` is atomic on failure -/

/-- C10: when fetching or parsing a fresh batch fails — a rejected
fetch, a non-404 error status, an unparsable 2xx body, or a 404 whose
fallback fetch also fails — `loadBatch` returns the empty list, shows
the error notice, and leaves the state (Developer Store and loaded-batch
set included) exactly as it was, so the batch remains eligible for a
retry. -/
theorem loadBatch_atomic_on_failure (w : World) (st : AppState) (n : Nat)
    (hn : st.loadedBatches.contains n = false)
    (hfail : w.batchFetch n = .malformed ∨ w.batchFetch n = .httpError ∨
      w.batchFetch n = .networkError ∨
      (w.batchFetch n = .notFound ∧ w.fallbackFetch = none)) :
    loadBatch w st n = ⟨st, [], true⟩ := by
  rcases hfail with hb | hb | hb | ⟨hb, hf⟩ <;>
    simp only [loadBatch, hn, Bool.false_eq_true, if_false, hb]
  rw [hf]

/-- Witness for C10: an unreachable source on a fresh batch index. -/
theorem loadBatch_atomic_on_failure_witness :
    loadBatch worldNetDown emptyState 0 = ⟨emptyState, [], true⟩ :=
  loadBatch_atomic_on_failure worldNetDown emptyState 0 (by decide)
    (Or.inr (Or.inr (Or.inl rfl)))

/-! ### C6 — contiguous, ordered batch expansion -/

theorem imin_le_left (a b : Int) : imin a b ≤ a := by
  unfold imin
  split <;> omega

theorem imin_le_right (a b : Int) : imin a b ≤ b := by
  unfold imin
  split <;> omega

/-- C6: with batches `0 .. k-1` loaded (and the guard satisfied:
zoom at least the threshold, fewer than the batch ceiling loaded, index
present), `onMapChange` issues `loadBatch` exactly on the indices from
`k` up to the computed target, in increasing order with no index
skipped; and the computed target never exceeds the total batch count the
index reports, so loading stops early when that total is smaller. -/
theorem onMapChange_contiguous (zoom : JNum) (k : Nat) (info : IndexInfo)
    (hz : jle (jint 5) zoom = true) (hk : k < 10) :
    onMapChangePlan zoom (List.range k) (some info) =
      List.range' k ((targetBatchCount zoom info.total_batches).toNat - k)
    ∧ (targetBatchCount zoom info.total_batches).toNat ≤ info.total_batches := by
  constructor
  · unfold onMapChangePlan
    simp only [List.length_range]
    rw [hz, decide_eq_true hk]
    simp only [Bool.and_self, if_true]
    apply List.filter_eq_self.mpr
    intro i hi
    rw [List.mem_range'_1] at hi
    have : ¬ (List.range k).contains i = true := by
      rw [List.elem_iff, List.mem_range]
      omega
    simp only [Bool.not_eq_true] at this
    rw [this]
    rfl
  · have h1 : targetBatchCount zoom info.total_batches ≤ (info.total_batches : Int) :=
      le_trans (imin_le_left _ _) (imin_le_right _ _)
    have := Int.toNat_le_toNat h1
    rwa [Int.toNat_natCast] at this

/-- Witness for C6, the scenario of the claim: zoom 7 with batches 0-1
loaded and 9 batches available computes target 5 and loads 2, 3, 4 in
order; with only 4 batches available it stops at 2, 3. -/
theorem onMapChange_contiguous_witness :
    jle (jint 5) (jint 7) = true ∧ (2 : Nat) < 10
    ∧ targetBatchCount (jint 7) 9 = 5
    ∧ onMapChangePlan (jint 7) (List.range 2) (some ⟨1000, 9⟩) = [2, 3, 4]
    ∧ onMapChangePlan (jint 7) (List.range 2) (some ⟨1000, 4⟩) = [2, 3] := by
  refine ⟨by decide, by decide, by decide, ?_, ?_⟩
  · rw [(onMapChange_contiguous (jint 7) 2 ⟨1000, 9⟩ (by decide) (by decide)).1]
    decide
  · rw [(onMapChange_contiguous (jint 7) 2 ⟨1000, 4⟩ (by decide) (by decide)).1]
    decide

/-! ### C7 — viewport display cap with top-N semantics -/

/-- C7: when at least 100 developers are loaded and every stored
developer has coordinates inside the padded bounding region and a
follower count, `getDevelopersInBounds` returns exactly 100 entries,
they are in descending follower order, and they are the top candidates:
every returned developer has at least as many followers as every
candidate that was cut off. -/
theorem getDevelopersInBounds_capped (st : AppState) (bounds : Bounds)
    (hall : ∀ d ∈ jsValues st.allDevelopers,
      (∃ c, d.coordinates = some c ∧ boundsContains (padBounds bounds (jdec 2 1)) c = true)
      ∧ d.followers.isSome = true)
    (hsize : 100 ≤ (jsValues st.allDevelopers).length) :
    (getDevelopersInBounds st bounds).length = 100
    ∧ List.Sorted (fun a b => followerVal b ≤ followerVal a) (getDevelopersInBounds st bounds)
    ∧ ∀ x ∈ getDevelopersInBounds st bounds,
        ∀ y ∈ (sortByFollowers (jsValues st.allDevelopers)).drop 100,
          followerVal y ≤ followerVal x := by
  have hlen : (jsValues st.allDevelopers).length = st.allDevelopers.length :=
    List.length_map _ _
  have hnotlt : ¬ st.allDevelopers.length < 100 := by omega
  have hshow : decide (st.allDevelopers.length < 100) = false := decide_eq_false hnotlt
  have hmain : getDevelopersInBounds st bounds =
      (sortByFollowers (jsValues st.allDevelopers)).take 100 := by
    simp only [getDevelopersInBounds, hshow, Bool.false_eq_true, if_false, Bool.false_or]
    congr 1
    congr 1
    apply List.filter_eq_self.mpr
    intro d hd
    obtain ⟨⟨c, hc, hb⟩, _⟩ := hall d hd
    rw [hc]
    exact hb
  haveI : IsTotal Developer (fun a b => followerVal b ≤ followerVal a) :=
    ⟨fun a b => le_total (followerVal b) (followerVal a)⟩
  haveI : IsTrans Developer (fun a b => followerVal b ≤ followerVal a) :=
    ⟨fun _ _ _ hab hbc => le_trans hbc hab⟩
  have hsorted : List.Sorted (fun a b => followerVal b ≤ followerVal a)
      (sortByFollowers (jsValues st.allDevelopers)) :=
    List.sorted_insertionSort _ _
  have hslen : (sortByFollowers (jsValues st.allDevelopers)).length =
      (jsValues st.allDevelopers).length :=
    List.length_insertionSort _ _
  refine ⟨?_, ?_, ?_⟩
  · rw [hmain, List.length_take, hslen]
    omega
  · rw [hmain]
    exact List.Pairwise.sublist (List.take_sublist _ _) hsorted
  · intro x hx y hy
    rw [hmain] at hx
    exact hsorted.rel_of_mem_take_of_mem_drop hx hy

/-- A developer with coordinates at `(0.5, 0.5)` and `i` followers. -/
def mkDev (i : Nat) : Developer :=
  { login := Nat.repr i, name := none, location := none,
    coordinates := some (c4 5000 5000), followers := some (i : Int), bio := none,
    company := none, total_stars := some (i : Int), total_forks := none,
    public_repos := none }

/-- A store of 500 developers, all inside the unit square. -/
def bigStore : List (String × Developer) :=
  (List.range 500).map (fun i => (Nat.repr i, mkDev i))

/-- The module state holding `bigStore`. -/
def bigState : AppState := ⟨bigStore, [], [], []⟩

/-- The unit-square viewport. -/
def unitBounds : Bounds := ⟨jint 0, jint 1, jint 0, jint 1⟩

set_option maxRecDepth 200000 in
/-- Witness for C7: 500 developers inside the viewport yield exactly
100 selected entries. -/
theorem getDevelopersInBounds_capped_witness :
    100 ≤ (jsValues bigState.allDevelopers).length
    ∧ (getDevelopersInBounds bigState unitBounds).length = 100 :=
  ⟨by decide,
    (getDevelopersInBounds_capped bigState unitBounds (by decide) (by decide)).1⟩

/-! ### C8 — list-view display budget -/

/-- A store of 51 developers. -/
def store51 : List (String × Developer) :=
  (List.range 51).map (fun i => (Nat.repr i, mkDev i))

set_option maxRecDepth 200000 in
/-- C8 counterexample: `renderDeveloperList` in `app.js` has no
truncation — with 51 developers in the store and an empty query it
renders all 51 entries, so "at most 50 for every store contents, sort
key and search query" fails on this renderer. -/
theorem renderDeveloperList_no_cap_cex :
    ¬ ((renderDeveloperList (fun d => d.total_stars) "" store51).length ≤ 50) := by
  decide

/-- C8 (amended): only the `app-working.js` variant truncates the list
view to the top 50; the `app.js` variant (the one with search) renders
every developer matching the query, with no display budget — its output
length equals the filtered-store size for every sort key and query. -/
theorem renderDeveloperList_budgets (sortVal : Developer → Option Int) :
    (∀ devs : List Developer, (renderDeveloperListWorking sortVal devs).length ≤ 50)
    ∧ (∀ (q : String) (store : List (String × Developer)),
        (renderDeveloperList sortVal q store).length =
          ((jsValues store).filter (matchesQuery q)).length) := by
  constructor
  · intro devs
    unfold renderDeveloperListWorking
    rw [List.length_map, List.enum_length, List.length_take]
    omega
  · intro q store
    unfold renderDeveloperList
    rw [List.length_map, List.enum_length, List.length_insertionSort]

/-! ### C1 — failure semantics of a marker refresh -/

/-- Whether an `Except` is a success. -/
def isOkB : Except α β → Bool
  | .ok _ => true
  | .error _ => false

theorem buildGroupMarkers_ok_eq (la lg : JNum) (devs : List Developer) :
    ∀ (i : Nat) (ms : List Marker), buildGroupMarkers la lg i devs = .ok ms →
      ms = buildGroupMarkersSkip la lg i devs := by
  induction devs with
  | nil =>
    intro i ms h
    simp only [buildGroupMarkers, Except.ok.injEq] at h
    rw [← h]
    rfl
  | cons d ds ih =>
    intro i ms h
    unfold buildGroupMarkers at h
    unfold buildGroupMarkersSkip
    cases hp : createPopupContent d with
    | error e => rw [hp] at h; cases h
    | ok p =>
      rw [hp] at h
      cases hrest : buildGroupMarkers la lg (i + 1) ds with
      | ok ms' =>
        rw [hrest] at h
        simp only [Except.ok.injEq] at h
        rw [← h, ih (i + 1) ms' hrest]
      | error ms' => rw [hrest] at h; cases h

theorem buildGroupMarkers_err (la lg : JNum) (devs : List Developer) :
    ∀ (i : Nat) (ms : List Marker), buildGroupMarkers la lg i devs = .error ms →
      ∃ t, ms ++ t = buildGroupMarkersSkip la lg i devs := by
  induction devs with
  | nil =>
    intro i ms h
    simp [buildGroupMarkers] at h
  | cons d ds ih =>
    intro i ms h
    unfold buildGroupMarkers at h
    unfold buildGroupMarkersSkip
    cases hp : createPopupContent d with
    | error e =>
      rw [hp] at h
      simp only [Except.error.injEq] at h
      exact ⟨buildGroupMarkersSkip la lg (i + 1) ds, by rw [← h]; rfl⟩
    | ok p =>
      rw [hp] at h
      cases hrest : buildGroupMarkers la lg (i + 1) ds with
      | ok ms' => rw [hrest] at h; cases h
      | error ms' =>
        rw [hrest] at h
        simp only [Except.error.injEq] at h
        obtain ⟨t, ht⟩ := ih (i + 1) ms' hrest
        exact ⟨t, by rw [← h, List.cons_append, ht]⟩

theorem buildMarkers_ok_eq (gs : List (((Bool × Int) × (Bool × Int)) × List Developer)) :
    ∀ ms : List Marker, buildMarkers gs = .ok ms → ms = buildMarkersSkip gs := by
  induction gs with
  | nil =>
    intro ms h
    simp only [buildMarkers, Except.ok.injEq] at h
    rw [← h]
    rfl
  | cons g gs ih =>
    intro ms h
    unfold buildMarkers at h
    unfold buildMarkersSkip
    cases hg : buildGroupMarkers (fixed3Val g.1.1) (fixed3Val g.1.2) 0 g.2 with
    | error ms1 => rw [hg] at h; cases h
    | ok ms1 =>
      rw [hg] at h
      cases hrest : buildMarkers gs with
      | ok ms2 =>
        rw [hrest] at h
        simp only [Except.ok.injEq] at h
        rw [← h, ih ms2 hrest, buildGroupMarkers_ok_eq _ _ _ _ _ hg]
      | error ms2 => rw [hrest] at h; cases h

theorem buildMarkers_err (gs : List (((Bool × Int) × (Bool × Int)) × List Developer)) :
    ∀ ms : List Marker, buildMarkers gs = .error ms → ∃ t, ms ++ t = buildMarkersSkip gs := by
  induction gs with
  | nil =>
    intro ms h
    simp [buildMarkers] at h
  | cons g gs ih =>
    intro ms h
    unfold buildMarkers at h
    unfold buildMarkersSkip
    cases hg : buildGroupMarkers (fixed3Val g.1.1) (fixed3Val g.1.2) 0 g.2 with
    | error ms1 =>
      rw [hg] at h
      simp only [Except.error.injEq] at h
      obtain ⟨t, ht⟩ := buildGroupMarkers_err _ _ _ _ _ hg
      exact ⟨t ++ buildMarkersSkip gs, by rw [← h, ← List.append_assoc, ht]⟩
    | ok ms1 =>
      rw [hg] at h
      cases hrest : buildMarkers gs with
      | ok ms2 => rw [hrest] at h; cases h
      | error ms2 =>
        rw [hrest] at h
        simp only [Except.error.injEq] at h
        obtain ⟨t, ht⟩ := ih ms2 hrest
        refine ⟨t, ?_⟩
        rw [← h, List.append_assoc, ht, buildGroupMarkers_ok_eq _ _ _ _ _ hg]

/-- The resulting Marker Set never depends on the Marker Set present
before the refresh: the clear always commits. -/
theorem updateMapMarkers_ignores_old (ad : List (String × Developer))
    (lb : List Nat) (lc : LocationCache) (ms ms' : List Marker) (bounds : Bounds) :
    (updateMapMarkers ⟨ad, lb, lc, ms⟩ bounds).state.markers =
      (updateMapMarkers ⟨ad, lb, lc, ms'⟩ bounds).state.markers := by
  dsimp only [updateMapMarkers, getDevelopersInBounds]

/-- C1 (amended): an error thrown during marker construction is caught —
the refresh returns normally, and `errorShown` is set exactly when some
selected developer's popup construction throws. But the previous Marker
Set does not remain in place: the clear commits before resolution and
construction (only candidate selection precedes it), so the post-call
Marker Set is the prefix of the refresh's own constructible markers
built before the failure, and never depends on the markers present
before the call. -/
theorem updateMapMarkers_failure_semantics (st : AppState) (bounds : Bounds) :
    (∃ t, (updateMapMarkers st bounds).state.markers ++ t =
        buildMarkersSkip (groupByKey
          (geocodePass (getDevelopersInBounds st bounds) st.locationCache).1))
    ∧ (updateMapMarkers st bounds).state.markers =
        (updateMapMarkers { st with markers := [] } bounds).state.markers
    ∧ (updateMapMarkers st bounds).errorShown =
        !(isOkB (buildMarkers (groupByKey
          (geocodePass (getDevelopersInBounds st bounds) st.locationCache).1))) := by
  refine ⟨?_, ?_, ?_⟩
  · cases hbm : buildMarkers (groupByKey
        (geocodePass (getDevelopersInBounds st bounds) st.locationCache).1) with
    | ok ms =>
      have hres : (updateMapMarkers st bounds).state.markers = ms := by
        simp only [updateMapMarkers]
        rw [hbm]
      rw [hres, buildMarkers_ok_eq _ _ hbm]
      exact ⟨[], List.append_nil _⟩
    | error ms =>
      have hres : (updateMapMarkers st bounds).state.markers = ms := by
        simp only [updateMapMarkers]
        rw [hbm]
      rw [hres]
      exact buildMarkers_err _ _ hbm
  · exact updateMapMarkers_ignores_old st.allDevelopers st.loadedBatches
      st.locationCache st.markers [] bounds
  · cases hbm : buildMarkers (groupByKey
        (geocodePass (getDevelopersInBounds st bounds) st.locationCache).1) with
    | ok ms =>
      have : (updateMapMarkers st bounds).errorShown = false := by
        simp only [updateMapMarkers]
        rw [hbm]
      rw [this]
      rfl
    | error ms =>
      have : (updateMapMarkers st bounds).errorShown = true := by
        simp only [updateMapMarkers]
        rw [hbm]
      rw [this]
      rfl

/-- A developer record with coordinates but no `followers` field, for
which `createPopupContent` throws a `TypeError`. -/
def devNoFollowers : Developer :=
  { login := "alice", name := none, location := none,
    coordinates := some (c4 10000 20000), followers := none, bio := none,
    company := none, total_stars := none, total_forks := none,
    public_repos := none }

/-- A marker left over from a previous successful refresh. -/
def prevMarker : Marker :=
  ⟨jint 0, jint 0,
    { login := "old", displayName := "old", followers := 1, location := none,
      company := none, bioSnippet := none, public_repos := none }⟩

/-- A state holding one rendered marker and one developer whose marker
construction will throw on the next refresh. -/
def staleState : AppState :=
  { allDevelopers := [("alice", devNoFollowers)], loadedBatches := [0],
    locationCache := [], markers := [prevMarker] }

/-- C1 counterexample: on this state the refresh fails (the selected
developer has no `followers`, so popup construction throws), the error
is caught and the notice shown — but the Marker Set observable after
the call is empty, not the previously rendered set: the clear committed
before the failure, contradicting "the Marker Set after the call equals
the Marker Set before the call" for failing refreshes. -/
theorem updateMapMarkers_failure_cex :
    (updateMapMarkers staleState unitBounds).errorShown = true
    ∧ (updateMapMarkers staleState unitBounds).state.markers = []
    ∧ staleState.markers = [prevMarker]
    ∧ (updateMapMarkers staleState unitBounds).state.markers ≠ staleState.markers :=
  ⟨by decide, by decide, by decide, by decide⟩
